import Mathlib

/-!
Shallow embedding of the `fluvius-interim` workflow orchestration engine.

The repository ships its test suite (`tests/test_workflow.py`,
`tests/test_workflow_system.py`, `tests/test_domain.py`, `tests/test_import.py`)
and the `_meta` configuration module; the engine modules themselves
(`fluvius_interim.status`, `fluvius_interim.engine.*`,
`fluvius_interim.domain.*`, `fluvius_interim._meta.defaults`) are absent from
the source tree.  Definitions for those are modelled from the specification
(spec.md) and carry a doc comment saying so; everything present in the source
tree is translated directly.
-/

namespace FluviusInterim

/-! ## String helpers (executable models of Python `str.lower`, kebab-case, `int(...)`) -/

/-- Lower-case an ASCII character (model of Python `str.lower` per character). -/
def lowerChar (c : Char) : Char :=
  if 'A' ≤ c ∧ c ≤ 'Z' then Char.ofNat (c.toNat + 32) else c

/-- Lower-case a string (model of Python `str.lower`). -/
def lowerString (s : String) : String := ⟨s.data.map lowerChar⟩

/-- Upper-case an ASCII character (model of Python `str.upper` per character). -/
def upperChar (c : Char) : Char :=
  if 'a' ≤ c ∧ c ≤ 'z' then Char.ofNat (c.toNat - 32) else c

/-- Upper-case a string (model of Python `str.upper`). -/
def upperString (s : String) : String := ⟨s.data.map upperChar⟩

/-- Kebab-case a character: spaces become hyphens, letters are lower-cased. -/
def kebabChar (c : Char) : Char := if c = ' ' then '-' else lowerChar c

/-- Lower-kebab-case normalization of a workflow title (spec §3: "normalized
key (kebab-case derived from title unless an explicit key is given)"). -/
def kebabCase (s : String) : String := ⟨s.data.map kebabChar⟩

/-- Numeric value of an ASCII digit. -/
def digitVal (c : Char) : Option Nat :=
  if '0' ≤ c ∧ c ≤ '9' then some (c.toNat - 48) else none

def parseNatChars : List Char → Nat → Option Nat
  | [], acc => some acc
  | c :: cs, acc =>
    match digitVal c with
    | none => none
    | some d => parseNatChars cs (acc * 10 + d)

/-- Parse a decimal natural number (model of Python `int(...)` on the strings
relevant here; non-numeric input models the `ValueError`). -/
def parseNat (s : String) : Option Nat :=
  match s.data with
  | [] => none
  | cs => parseNatChars cs 0

/-- Render a natural number as a decimal string (model of Python `str(...)`). -/
def natToString (n : Nat) : String := ⟨Nat.toDigits 10 n⟩

/-! ## Status taxonomy

Modelled from the spec: `fluvius_interim/status.py` is absent from the source
tree.  Spec §3: "a status drawn from the categorized WorkflowStatus set
{NEW, ACTIVE, …} ⊂ {_ACTIVE, _INACTIVE, _FINISHED}"; §4.4 names the
FINISHED-category labels COMPLETED, CANCELLED, ABORTED.  The tests pin
ACTIVE ∈ _ACTIVE, BLANK ∈ _INACTIVE, COMPLETED ∈ _FINISHED. -/

inductive WorkflowStatus
  | BLANK
  | NEW
  | ACTIVE
  | COMPLETED
  | CANCELLED
  | ABORTED
deriving DecidableEq, Repr

/-- Display name of a workflow status (used in execution-error messages). -/
def WorkflowStatus.name : WorkflowStatus → String
  | .BLANK => "BLANK"
  | .NEW => "NEW"
  | .ACTIVE => "ACTIVE"
  | .COMPLETED => "COMPLETED"
  | .CANCELLED => "CANCELLED"
  | .ABORTED => "ABORTED"

/-- Membership in the `_ACTIVE` status category. -/
def WorkflowStatus.isActiveCat : WorkflowStatus → Bool
  | .ACTIVE => true
  | _ => false

/-- Membership in the `_INACTIVE` status category. -/
def WorkflowStatus.isInactiveCat : WorkflowStatus → Bool
  | .BLANK | .NEW => true
  | _ => false

/-- Membership in the `_FINISHED` status category. -/
def WorkflowStatus.isFinishedCat : WorkflowStatus → Bool
  | .COMPLETED | .CANCELLED | .ABORTED => true
  | _ => false

/-- Modelled from the spec: `StepStatus` mirrors the workflow taxonomy
(spec §3: "status drawn from StepStatus categories mirroring the
workflow's"); the tests pin PENDING, ACTIVE, COMPLETED with
COMPLETED ∈ _FINISHED and ACTIVE ∉ _FINISHED. -/
inductive StepStatus
  | PENDING
  | ACTIVE
  | COMPLETED
  | CANCELLED
deriving DecidableEq, Repr

/-- Membership in the step `_FINISHED` status category. -/
def StepStatus.isFinishedCat : StepStatus → Bool
  | .COMPLETED | .CANCELLED => true
  | _ => false

/-! ## State machine

Modelled from the spec: `fluvius_interim/engine/workflow.py` (the `transition`
decorator and `ALL_STATES` sentinel) is absent from the source tree.
Spec §4.2: "A transition execution first checks the current label is a member
of the transition's allowed-source set (or that the set is the wildcard); if
not, it fails with an execution error identifying the attempted transition,
the current label, and the allowed set"; §9: the wildcard is "a sentinel value
in the allowed-source set, checked before exact-label matching". -/

/-- One member of a transition's allowed-source set: either the `ALL_STATES`
wildcard sentinel or a concrete state label. -/
inductive SourceSpec
  | allStates
  | label (l : String)
deriving DecidableEq, Repr

/-- A declared transition: its name, target label, and allowed-source set. -/
structure TransitionDef where
  name : String
  target : String
  allowed : List SourceSpec
deriving DecidableEq, Repr

/-- Execution error raised when a transition is attempted from a label outside
its allowed-source set; it identifies the attempted transition, the current
label, and the allowed set. -/
structure ExecError where
  transitionName : String
  currentLabel : String
  allowedSet : List SourceSpec
deriving DecidableEq, Repr

/-- Does the allowed-source set admit the current label?  The wildcard
sentinel is checked alongside exact-label matching. -/
def allowsFrom (allowed : List SourceSpec) (cur : String) : Bool :=
  allowed.any (fun s =>
    match s with
    | .allStates => true
    | .label l => l == cur)

/-- Execute a transition against a current label: either the new label (the
transition's target) or an execution error. -/
def execTransition (t : TransitionDef) (cur : String) : Except ExecError String :=
  if allowsFrom t.allowed cur then .ok t.target
  else .error ⟨t.name, cur, t.allowed⟩

/-- One occurrence of a Step definition inside a workflow instance
(spec §3: id, defining step key, current state label, status). -/
structure StepInstance where
  id : Nat
  step_key : String
  label : String
  status : StepStatus
deriving DecidableEq, Repr

/-- Attempt a transition on a step instance.  On success the instance moves to
the target label; on failure the error is reported and the instance is
returned unchanged (the guard is checked before any mutation, spec §4.2). -/
def attemptTransition (si : StepInstance) (t : TransitionDef) :
    StepInstance × Option ExecError :=
  match execTransition t si.label with
  | .ok tgt => ({ si with label := tgt }, none)
  | .error e => (si, some e)

/-! ## Step and workflow definitions (Definition Model)

Modelled from the spec: `fluvius_interim/engine/workflow.py` and
`fluvius_interim/engine/datadef.py` are absent from the source tree.
Spec §4.1: declaring validates synchronously — case-insensitive label
uniqueness, every transition target declared, normalized key, registration
into the Workflow Manager registry. -/

/-- Configuration error raised synchronously at definition time (spec §7).
`invalidLabel` models the `ValueError` raised by `validate_labels` on a
malformed label (the test suite accepts either error kind for a bad
state tuple). -/
inductive ConfigError
  | invalidLabel (l : String)
  | duplicateLabels (labels : List String)
  | unknownTarget (target : String)
  | keyNotFound (key : String)
deriving DecidableEq, Repr

/-- Is a state label well-formed?  `validate_labels` accepts upper-case
labels and rejects e.g. `"invalid_label"` (test_label_validation). -/
def validLabel (l : String) : Bool := (l != "") && (upperString l == l)

/-- Validate a tuple of state labels, returning them unchanged when all are
well-formed and the first offending label otherwise (models
`validate_labels` from `fluvius_interim.engine.datadef`). -/
def validate_labels (ls : List String) : Except String (List String) :=
  match ls.find? (fun l => !(validLabel l)) with
  | some l => .error l
  | none => .ok ls

/-- Decidable equality on `Except`, used to evaluate definition-time
validation outcomes on concrete inputs. -/
instance {ε α : Type} [DecidableEq ε] [DecidableEq α] :
    DecidableEq (Except ε α) := fun x y =>
  match x, y with
  | .ok a, .ok b =>
    if h : a = b then isTrue (by rw [h])
    else isFalse (fun hc => h (Except.ok.injEq a b ▸ hc))
  | .ok _, .error _ => isFalse (fun hc => Except.noConfusion hc)
  | .error _, .ok _ => isFalse (fun hc => Except.noConfusion hc)
  | .error e, .error f =>
    if h : e = f then isTrue (by rw [h])
    else isFalse (fun hc => h (Except.error.injEq e f ▸ hc))

/-- Raw inputs of a `Step` class declaration: title, state labels, optional
explicit start label, transition declarations, optional `multi` flag. -/
structure RawStepDecl where
  title : String
  states : List String
  startLabel : Option String
  transitions : List TransitionDef
  multiFlag : Option Bool
deriving DecidableEq, Repr

/-- A validated Step definition (spec §3): title, state labels, start label
(defaults to the first declared state), transitions, `multi` flag
(defaults to false). -/
structure StepDef where
  title : String
  states : List String
  start : String
  transitions : List TransitionDef
  multi : Bool
deriving DecidableEq, Repr

/-- Does the transition's target label fall outside the declared states? -/
def targetMissing (states : List String) (t : TransitionDef) : Bool :=
  !(states.contains t.target)

/-- Validate and freeze a Step declaration (spec §4.1): label well-formedness,
case-insensitive label uniqueness, every transition target declared.  On any
failure the declaration yields a configuration error and no definition. -/
def defineStep (r : RawStepDecl) : Except ConfigError StepDef :=
  match validate_labels r.states with
  | .error l => .error (.invalidLabel l)
  | .ok _ =>
    if (r.states.map lowerString).Nodup then
      match r.transitions.find? (targetMissing r.states) with
      | some t => .error (.unknownTarget t.target)
      | none =>
        .ok { title := r.title
              states := r.states
              start := r.startLabel.getD (r.states.headD "")
              transitions := r.transitions
              multi := r.multiFlag.getD false }
    else .error (.duplicateLabels r.states)

/-- Validate a list of Step declarations, failing on the first error. -/
def defineSteps : List RawStepDecl → Except ConfigError (List StepDef)
  | [] => .ok []
  | r :: rs =>
    match defineStep r with
    | .error e => .error e
    | .ok sd =>
      match defineSteps rs with
      | .error e => .error e
      | .ok sds => .ok (sd :: sds)

/-- A validated Workflow definition (spec §3): title, normalized key,
revision, step definitions and the keys of the steps seeded on `start()`. -/
structure WorkflowDef where
  title : String
  key : String
  revision : Nat
  steps : List (String × StepDef)
  seedSteps : List String
deriving DecidableEq, Repr

/-- Normalized registration key: the lower-kebab-case form of the title when
no explicit key is given, the explicit key verbatim otherwise (spec §3). -/
def workflowKey (title : String) (explicitKey : Option String) : String :=
  match explicitKey with
  | some k => k
  | none => kebabCase title

/-- The Workflow Manager's process-wide `__registry__`: key → definition,
newest registration first (re-declaring a key overwrites the prior entry). -/
abbrev Registry := List (String × WorkflowDef)

/-- Look a key up in the registry (the newest registration wins). -/
def lookupRegistry (reg : Registry) (key : String) : Option WorkflowDef :=
  (reg.find? (fun p => p.1 == key)).map (fun p => p.2)

/-- Declare a workflow (spec §4.1): validate every nested Step declaration,
compute the normalized key, and on success register key → definition in the
Manager's registry.  On any configuration error nothing is registered. -/
def declare_workflow (reg : Registry) (title : String) (explicitKey : Option String)
    (revision : Nat) (stepDecls : List (String × RawStepDecl))
    (seeds : List String) : Except ConfigError (Registry × WorkflowDef) :=
  match defineSteps (stepDecls.map (fun p => p.2)) with
  | .error e => .error e
  | .ok sds =>
    let key := workflowKey title explicitKey
    let wf : WorkflowDef :=
      { title := title
        key := key
        revision := revision
        steps := (stepDecls.map (fun p => p.1)).zip sds
        seedSteps := seeds }
    .ok ((key, wf) :: reg, wf)

/-! ## Immutable state snapshots

Modelled from the spec: `fluvius_interim/engine/datadef.py` (`WorkflowState`)
is absent from the source tree.  Spec §4.2: "State objects are immutable value
snapshots: mutating a logical field (e.g., status) on a snapshot produces a
new snapshot and never mutates the original". -/

/-- A workflow-level state snapshot (`WorkflowState`): state, label, status. -/
structure WorkflowState where
  state : String
  label : String
  status : WorkflowStatus
deriving DecidableEq, Repr

/-- The `.set(...)`-style update: each argument, when provided, replaces the
corresponding field in the returned snapshot; omitted fields are carried over
from the receiver, which itself is never mutated. -/
def WorkflowState.set (s : WorkflowState) (newState newLabel : Option String)
    (newStatus : Option WorkflowStatus) : WorkflowState :=
  { state := newState.getD s.state
    label := newLabel.getD s.label
    status := newStatus.getD s.status }

/-! ## Workflow instances and the external store

Modelled from the spec: `fluvius_interim/engine/manager.py` and
`fluvius_interim/model.py` are absent from the source tree.  Spec §6 treats
the store as "an opaque transactional key-value aggregate store" holding, per
workflow id, the aggregate root and its step records; §4.4 specifies
`create_workflow`, `start`, `process_event`, `load_workflow_by_id` and
`commit_workflow`.  Instance and step ids (UUIDs in the source) are modelled
as naturals drawn from a counter. -/

/-- A running workflow instance (spec §3): identity, definition key, target
resource reference, parameter map, status, and the `step_id_map` from
step-instance id to step-instance state.  `nextStepId` models the fresh-id
supply for spawned steps; `dirty` models the pending in-memory mutation
flag cleared by commit and absent after a reload. -/
structure WorkflowInstance where
  id : Nat
  key : String
  resource_name : String
  resource_id : Nat
  params : List (String × String)
  status : WorkflowStatus
  step_id_map : List (Nat × StepInstance)
  nextStepId : Nat
  dirty : Bool
deriving DecidableEq, Repr

/-- The aggregate-root record persisted for a workflow instance: everything
except the step records. -/
structure WorkflowRoot where
  id : Nat
  key : String
  resource_name : String
  resource_id : Nat
  params : List (String × String)
  status : WorkflowStatus
  nextStepId : Nat
deriving DecidableEq, Repr

/-- A persisted step record: step id, defining step key, state label and
status. -/
structure StepRecord where
  step_id : Nat
  step_key : String
  label : String
  status : StepStatus
deriving DecidableEq, Repr

/-- The external store: per workflow id, an optional aggregate root and the
step records belonging to that workflow. -/
structure Store where
  roots : Nat → Option WorkflowRoot
  steps : Nat → List StepRecord

/-- The empty store. -/
def Store.empty : Store := ⟨fun _ => none, fun _ => []⟩

/-- Project the aggregate-root record out of an in-memory instance. -/
def rootOfInstance (wf : WorkflowInstance) : WorkflowRoot :=
  { id := wf.id
    key := wf.key
    resource_name := wf.resource_name
    resource_id := wf.resource_id
    params := wf.params
    status := wf.status
    nextStepId := wf.nextStepId }

/-- Flatten one `step_id_map` entry into a persisted step record. -/
def recordOfEntry (p : Nat × StepInstance) : StepRecord :=
  { step_id := p.1
    step_key := p.2.step_key
    label := p.2.label
    status := p.2.status }

/-- Rehydrate one `step_id_map` entry from a persisted step record. -/
def entryOfRecord (r : StepRecord) : Nat × StepInstance :=
  (r.step_id, { id := r.step_id, step_key := r.step_key,
                label := r.label, status := r.status })

/-- `commit_workflow`: flush one instance's pending mutations to the store —
the aggregate root and all step records under the instance's id are replaced
by the in-memory state (spec §4.4). -/
def commit_workflow (st : Store) (wf : WorkflowInstance) : Store :=
  { roots := fun i => if i = wf.id then some (rootOfInstance wf) else st.roots i
    steps := fun i =>
      if i = wf.id then wf.step_id_map.map recordOfEntry else st.steps i }

/-- `load_workflow_by_id(key, id)`: fetch the aggregate root and its step
records and rehydrate a usable instance with no pending in-memory mutations
(spec §4.4). -/
def load_workflow_by_id (st : Store) (key : String) (id : Nat) :
    Option WorkflowInstance :=
  match st.roots id with
  | none => none
  | some r =>
    if r.key == key then
      some { id := r.id
             key := r.key
             resource_name := r.resource_name
             resource_id := r.resource_id
             params := r.params
             status := r.status
             step_id_map := (st.steps id).map entryOfRecord
             nextStepId := r.nextStepId
             dirty := false }
    else none

/-! ## Domain aggregate: event injection

Modelled from the spec: `fluvius_interim/domain/aggregate.py` is absent from
the source tree.  Spec §8 and `test_workflow_status_validation`: injecting an
event into a workflow whose status is not in the `_ACTIVE` category fails
with an error whose message is
`"Cannot inject event into workflow in status <STATUS>"`, leaving the
instance state unchanged; on an active workflow the method reports the event
as injected without touching the record. -/

/-- Payload of the `InjectEvent` command (`InjectEventData`). -/
structure InjectEventData where
  event_type : String
  target_step_id : Option Nat
  priority : Nat
deriving DecidableEq, Repr

/-- Result record returned by a successful event injection. -/
structure InjectResult where
  status : String
  event_type : String
  workflow_id : Nat
deriving DecidableEq, Repr

/-- The error message naming the offending status. -/
def injectErrorMessage (s : WorkflowStatus) : String :=
  "Cannot inject event into workflow in status " ++ s.name

/-- `do__inject_event`: validate that the backing workflow is in an
`_ACTIVE`-category status, then report the injection; otherwise fail with an
error naming the offending status. -/
def do__inject_event (wf : WorkflowRoot) (d : InjectEventData) :
    Except String InjectResult :=
  if wf.status.isActiveCat then
    .ok { status := "event_injected", event_type := d.event_type,
          workflow_id := wf.id }
  else .error (injectErrorMessage wf.status)

/-- Run the `InjectEvent` command against the store: resolve the aggregate
root by id, then delegate to `do__inject_event`; the store after the call is
returned alongside the outcome. -/
def inject_event_store (st : Store) (id : Nat) (d : InjectEventData) :
    Store × Except String InjectResult :=
  match st.roots id with
  | none => (st, .error "workflow not found")
  | some r => (st, do__inject_event r d)

/-! ## Package configuration (`_meta`)

`setup_config` is translated from `src/src/fluvius_interim/_meta/__init__.py`.
The `_meta.defaults` module it imports is absent from the source tree; its
values are modelled from the test suite (`test_configuration_values` pins
`MAX_MUTATIONS = 50` and `CQRS_DOMAIN_NAMESPACE = 'riparius-workflow'`); the
remaining two defaults are unspecified placeholder strings. -/

/-- The process environment, as a partial map from variable name to value. -/
abbrev Env := String → Option String

/-- Modelled from the spec: default values of the absent
`fluvius_interim._meta.defaults` module (values pinned by the tests). -/
def defaults_MAX_MUTATIONS : Nat := 50

/-- Modelled from the spec: default CQRS domain namespace from the absent
`defaults` module. -/
def defaults_CQRS_DOMAIN_NAMESPACE : String := "riparius-workflow"

/-- Modelled from the spec: default database DSN from the absent `defaults`
module (exact value unspecified by tests). -/
def defaults_DB_DSN : String := ""

/-- Modelled from the spec: default resource schema from the absent
`defaults` module (exact value unspecified by tests). -/
def defaults_CQRS_RESOURCE_SCHEMA : String := ""

/-- The configuration namespace produced by `setup_config`. -/
structure Config where
  MAX_MUTATIONS : Nat
  DB_DSN : String
  CQRS_DOMAIN_NAMESPACE : String
  CQRS_RESOURCE_SCHEMA : String
deriving DecidableEq, Repr

/-- `int(os.getenv(name, default))`: the default when the variable is unset,
else the parsed integer value; a non-numeric value models the `ValueError`. -/
def getenvInt (env : Env) (name : String) (deflt : Nat) : Option Nat :=
  match env name with
  | none => some deflt
  | some s => parseNat s

/-- `setup_config` from `fluvius_interim._meta`: builds the configuration
namespace from the environment, falling back to the `defaults` module. -/
def setup_config (env : Env) : Option Config :=
  match getenvInt env "FLUVIUS_INTERIM_MAX_MUTATIONS" defaults_MAX_MUTATIONS with
  | none => none
  | some m =>
    some { MAX_MUTATIONS := m
           DB_DSN := (env "FLUVIUS_INTERIM_DB_DSN").getD defaults_DB_DSN
           CQRS_DOMAIN_NAMESPACE :=
             (env "FLUVIUS_INTERIM_DOMAIN_NAMESPACE").getD
               defaults_CQRS_DOMAIN_NAMESPACE
           CQRS_RESOURCE_SCHEMA :=
             (env "FLUVIUS_INTERIM_RESOURCE_SCHEMA").getD
               defaults_CQRS_RESOURCE_SCHEMA }

/-! ## Event router and workflow manager operations

Modelled from the spec: `fluvius_interim/engine/router.py` and
`fluvius_interim/engine/manager.py` are absent from the source tree.
Spec §4.3: a process-wide table maps an event name to an ordered list of
handler bindings, each tagged with its owner; dispatch selects every binding
whose owner is the workflow's definition or a step definition present in the
instance's `step_id_map`.  §4.4: `create_workflow` looks the key up in the
registry and builds an inert instance; `start()` sets status ACTIVE and seeds
the initial step instances; `process_event` requires an `_ACTIVE`-category
status and produces one updated snapshot per dispatched handler. -/

/-- One handler binding in the routing table: its owner (a workflow key or a
step key) and the step instances it spawns on a matching event.  Handlers are
modelled by their engine-visible effect (spawning steps), which is the effect
the test scenario exercises. -/
structure HandlerSpec where
  owner : String
  spawns : List String
deriving DecidableEq, Repr

/-- The `ActivityRouter.ROUTING_TABLE`: event name → ordered handler list. -/
abbrev RoutingTable := List (String × List HandlerSpec)

/-- All handler bindings registered for an event name. -/
def routeLookup (table : RoutingTable) (name : String) : List HandlerSpec :=
  ((table.find? (fun p => p.1 == name)).map (fun p => p.2)).getD []

/-- Start label of a step definition inside a workflow definition. -/
def stepStartLabel (d : WorkflowDef) (key : String) : String :=
  match d.steps.find? (fun p => p.1 == key) with
  | some p => p.2.start
  | none => ""

/-- Spawn a fresh instance of the named step into the workflow instance,
appending it to `step_id_map` under a fresh id. -/
def spawnStep (d : WorkflowDef) (wf : WorkflowInstance) (key : String) :
    WorkflowInstance :=
  { wf with
    step_id_map := wf.step_id_map ++
      [(wf.nextStepId,
        { id := wf.nextStepId, step_key := key,
          label := stepStartLabel d key, status := .ACTIVE })]
    nextStepId := wf.nextStepId + 1
    dirty := true }

/-- `create_workflow(key, resource_name, resource_id, params)`: look the key
up in the registry (fail when absent) and build an inert instance in the
un-started NEW status with an empty `step_id_map` (spec §4.4).  `freshId`
models the allocated instance id. -/
def create_workflow (reg : Registry) (key resource_name : String)
    (resource_id : Nat) (params : List (String × String)) (freshId : Nat) :
    Except ConfigError WorkflowInstance :=
  match lookupRegistry reg key with
  | none => .error (.keyNotFound key)
  | some _ =>
    .ok { id := freshId
          key := key
          resource_name := resource_name
          resource_id := resource_id
          params := params
          status := .NEW
          step_id_map := []
          nextStepId := 0
          dirty := true }

/-- `instance.start()`: set status ACTIVE and seed the initial step instances
declared by the definition, populating `step_id_map` (spec §4.4). -/
def startWorkflow (d : WorkflowDef) (wf : WorkflowInstance) : WorkflowInstance :=
  d.seedSteps.foldl (spawnStep d) { wf with status := .ACTIVE, dirty := true }

/-- An incoming event payload (spec §6: resource name, resource id and a
step-selector). -/
structure EventData where
  resource_name : String
  resource_id : Nat
  step_selector : Nat
deriving DecidableEq, Repr

/-- Look a key up in the instance's parameter map. -/
def lookupParam (wf : WorkflowInstance) (k : String) : Option String :=
  (wf.params.find? (fun p => p.1 == k)).map (fun p => p.2)

/-- Does the event payload match the instance: same resource reference and a
step-selector matching the instance's `step-selector` parameter? -/
def eventMatches (wf : WorkflowInstance) (evt : EventData) : Bool :=
  (evt.resource_name == wf.resource_name) &&
  (evt.resource_id == wf.resource_id) &&
  (lookupParam wf "step-selector" == some (natToString evt.step_selector))

/-- Apply one handler binding: when the event matches the instance, spawn the
handler's steps; otherwise leave the instance untouched. -/
def applyHandler (d : WorkflowDef) (evt : EventData) (wf : WorkflowInstance)
    (h : HandlerSpec) : WorkflowInstance :=
  if eventMatches wf evt then h.spawns.foldl (spawnStep d) wf else wf

/-- Is the handler bound to this instance: owned by the workflow's definition
or by a step definition currently represented in `step_id_map` (spec §4.3)? -/
def handlerApplies (d : WorkflowDef) (wf : WorkflowInstance)
    (h : HandlerSpec) : Bool :=
  (h.owner == d.key) || wf.step_id_map.any (fun p => p.2.step_key == h.owner)

/-- Run the dispatched handlers in order, producing one cumulative snapshot
per handler (spec §4.4: each snapshot reflects all handler outputs so far). -/
def runHandlers (d : WorkflowDef) (evt : EventData) :
    WorkflowInstance → List HandlerSpec → List WorkflowInstance
  | _, [] => []
  | wf, h :: hs =>
    let wf' := applyHandler d evt wf h
    wf' :: runHandlers d evt wf' hs

/-- `process_event(event_type, event_payload)`: fail when the backing
instance is not in an `_ACTIVE`-category status, naming the offending status;
otherwise produce the finite sequence of updated snapshots, one per
dispatched handler (spec §4.4). -/
def process_event (table : RoutingTable) (d : WorkflowDef)
    (wf : WorkflowInstance) (name : String) (evt : EventData) :
    Except String (List WorkflowInstance) :=
  if wf.status.isActiveCat then
    .ok (runHandlers d evt wf
      ((routeLookup table name).filter (handlerApplies d wf)))
  else
    .error ("Cannot process event for workflow in status " ++ wf.status.name)

/-! ## The `sample-process` scenario

Modelled from the spec: the `sample-process` workflow definition used by
`test_workflow_01`/`test_workflow_02` is absent from the source tree.
Spec §8 scenario: one seed step; a `test-event` handler that, on a payload
carrying the matching resource name, resource id and step-selector, spawns
two new step instances, so that the first event leaves exactly 3 entries in
`step_id_map` and a second event on the reloaded instance leaves exactly 5
(the prior 3 retained). -/

def sampleStepOne : StepDef :=
  { title := "Step One", states := ["CREATED", "COMPLETED"],
    start := "CREATED", transitions := [], multi := false }

def sampleStepTwo : StepDef :=
  { title := "Step Two", states := ["CREATED", "COMPLETED"],
    start := "CREATED", transitions := [], multi := true }

def sampleStepThree : StepDef :=
  { title := "Step Three", states := ["CREATED", "COMPLETED"],
    start := "CREATED", transitions := [], multi := true }

def sampleProcess : WorkflowDef :=
  { title := "Sample Process"
    key := "sample-process"
    revision := 1
    steps := [("step-one", sampleStepOne), ("step-two", sampleStepTwo),
              ("step-three", sampleStepThree)]
    seedSteps := ["step-one"] }

def sampleRoutingTable : RoutingTable :=
  [("test-event",
    [{ owner := "sample-process", spawns := ["step-two", "step-three"] }])]

def sampleRegistry : Registry := [("sample-process", sampleProcess)]

/-- The fixed selector UUID of the test scenario, as a natural. -/
def selector01 : Nat := 101

/-- The random resource UUID of the test scenario, as a natural. -/
def resource01 : Nat := 7

def scenarioParams : List (String × String) :=
  [("test-param", "test-value"), ("step-selector", natToString selector01)]

def scenarioEvent : EventData :=
  { resource_name := "test-resource", resource_id := resource01,
    step_selector := selector01 }

/-- Placeholder instance used to destructure `Except`/`Option` results in the
concrete scenario; never reached on the happy path. -/
def fallbackInstance : WorkflowInstance :=
  { id := 0, key := "", resource_name := "", resource_id := 0, params := [],
    status := .BLANK, step_id_map := [], nextStepId := 0, dirty := false }

def scenarioCreated : WorkflowInstance :=
  match create_workflow sampleRegistry "sample-process" "test-resource"
      resource01 scenarioParams 1 with
  | .ok wf => wf
  | .error _ => fallbackInstance

def scenarioStarted : WorkflowInstance := startWorkflow sampleProcess scenarioCreated

def scenarioStore1 : Store := commit_workflow Store.empty scenarioStarted

def scenarioSnaps1 : List WorkflowInstance :=
  match process_event sampleRoutingTable sampleProcess scenarioStarted
      "test-event" scenarioEvent with
  | .ok l => l
  | .error _ => []

def scenarioAfterEvent1 : WorkflowInstance :=
  scenarioSnaps1.getLastD fallbackInstance

def scenarioStore2 : Store := commit_workflow scenarioStore1 scenarioAfterEvent1

def scenarioReloaded : Option WorkflowInstance :=
  load_workflow_by_id scenarioStore2 "sample-process" scenarioStarted.id

def scenarioReloadedInstance : WorkflowInstance :=
  scenarioReloaded.getD fallbackInstance

def scenarioSnaps2 : List WorkflowInstance :=
  match process_event sampleRoutingTable sampleProcess scenarioReloadedInstance
      "test-event" scenarioEvent with
  | .ok l => l
  | .error _ => []

def scenarioAfterEvent2 : WorkflowInstance :=
  scenarioSnaps2.getLastD fallbackInstance

/-! ## Concrete fixtures for witnesses -/

def completedRoot : WorkflowRoot :=
  { id := 1, key := "sample-process", resource_name := "test-resource",
    resource_id := 7, params := [], status := .COMPLETED, nextStepId := 0 }

def completedStore : Store :=
  ⟨fun i => if i = 1 then some completedRoot else none, fun _ => []⟩

def sampleInjectData : InjectEventData :=
  { event_type := "test_event", target_step_id := none, priority := 1 }

def dupLabelRaw : RawStepDecl :=
  { title := "Invalid State Step", states := ["CREATED", "created"],
    startLabel := none, transitions := [], multiFlag := none }

def badTargetRaw : RawStepDecl :=
  { title := "Invalid Transition Step", states := ["CREATED", "PROCESSING"],
    startLabel := none,
    transitions := [⟨"invalid_transition", "NONEXISTENT", []⟩],
    multiFlag := none }

def testStepRaw : RawStepDecl :=
  { title := "Test Step", states := ["CREATED", "COMPLETED"],
    startLabel := none, transitions := [], multiFlag := none }

def testStepDef : StepDef :=
  { title := "Test Step", states := ["CREATED", "COMPLETED"],
    start := "CREATED", transitions := [], multi := false }

def testWorkflowDef : WorkflowDef :=
  { title := "Test Workflow", key := "test-workflow", revision := 1,
    steps := [("test-step", testStepDef)], seedSteps := [] }

def multiStepRaw : RawStepDecl :=
  { title := "Multi Step", states := ["CREATED", "COMPLETED"],
    startLabel := none, transitions := [], multiFlag := some true }

def multiStepDef : StepDef :=
  { title := "Multi Step", states := ["CREATED", "COMPLETED"],
    start := "CREATED", transitions := [], multi := true }

/-- Environment with no fluvius variables set. -/
def envEmpty : Env := fun _ => none

/-- Environment with `FLUVIUS_INTERIM_MAX_MUTATIONS` set to `"75"`. -/
def envMax75 : Env :=
  fun k => if k = "FLUVIUS_INTERIM_MAX_MUTATIONS" then some "75" else none

end FluviusInterim

namespace FluviusInterim

/-! ## Claim theorems for the state machine -/

theorem allowsFrom_eq_false {l : List SourceSpec} {cur : String}
    (hw : SourceSpec.allStates ∉ l) (hs : SourceSpec.label cur ∉ l) :
    allowsFrom l cur = false := by
  induction l with
  | nil => rfl
  | cons h t ih =>
    simp only [allowsFrom, List.any_cons, Bool.or_eq_false_iff]
    constructor
    · cases h with
      | allStates => exact absurd (List.mem_cons_self _ _) hw
      | label s =>
        simp only [beq_eq_false_iff_ne, ne_eq]
        intro hcur
        exact hs (hcur ▸ List.mem_cons_self _ _)
    · exact ih (fun hm => hw (List.mem_cons_of_mem _ hm))
        (fun hm => hs (List.mem_cons_of_mem _ hm))

theorem allowsFrom_eq_true_of_wildcard {l : List SourceSpec} (cur : String)
    (hw : SourceSpec.allStates ∈ l) : allowsFrom l cur = true := by
  simp only [allowsFrom, List.any_eq_true]
  exact ⟨.allStates, hw, rfl⟩

/-- C3: invoking a transition whose explicit allowed-source set (no wildcard)
does not contain the current label fails with an execution error identifying
the attempted transition, the current label and the allowed set, and returns
the step instance unchanged. -/
theorem transition_outside_allowed_set_fails (si : StepInstance) (t : TransitionDef)
    (hw : SourceSpec.allStates ∉ t.allowed)
    (hs : SourceSpec.label si.label ∉ t.allowed) :
    attemptTransition si t = (si, some ⟨t.name, si.label, t.allowed⟩) := by
  simp only [attemptTransition, execTransition, allowsFrom_eq_false hw hs,
    Bool.false_eq_true, if_false]

/-- Witness for C3 at a concrete step instance and transition. -/
theorem transition_outside_allowed_set_fails_witness :
    attemptTransition ⟨0, "step-one", "COMPLETED", .ACTIVE⟩
        ⟨"start_processing", "PROCESSING", [.label "CREATED"]⟩ =
      (⟨0, "step-one", "COMPLETED", .ACTIVE⟩,
        some ⟨"start_processing", "COMPLETED", [.label "CREATED"]⟩) :=
  transition_outside_allowed_set_fails
    ⟨0, "step-one", "COMPLETED", .ACTIVE⟩
    ⟨"start_processing", "PROCESSING", [.label "CREATED"]⟩
    (by decide) (by decide)

/-- C7: a transition declared with the `ALL_STATES` wildcard in its
allowed-source set succeeds from every state label declared on the owning
state machine, moving the instance to the transition's target. -/
theorem wildcard_transition_succeeds (sd : StepDef) (t : TransitionDef)
    (si : StepInstance) (_ht : t ∈ sd.transitions)
    (hw : SourceSpec.allStates ∈ t.allowed) (_hcur : si.label ∈ sd.states) :
    attemptTransition si t = ({ si with label := t.target }, none) := by
  simp only [attemptTransition, execTransition,
    allowsFrom_eq_true_of_wildcard si.label hw, if_true]

/-- Witness for C7: the emergency wildcard transition fires from each of the
three declared states of the modelled emergency step. -/
theorem wildcard_transition_succeeds_witness :
    attemptTransition ⟨0, "emergency-step", "PROCESSING", .ACTIVE⟩
        ⟨"emergency_stop", "EMERGENCY", [.allStates]⟩ =
      (⟨0, "emergency-step", "EMERGENCY", .ACTIVE⟩, none) :=
  wildcard_transition_succeeds
    { title := "Emergency Step"
      states := ["CREATED", "PROCESSING", "EMERGENCY"]
      start := "CREATED"
      transitions := [⟨"emergency_stop", "EMERGENCY", [.allStates]⟩]
      multi := false }
    ⟨"emergency_stop", "EMERGENCY", [.allStates]⟩
    ⟨0, "emergency-step", "PROCESSING", .ACTIVE⟩
    (by decide) (by decide) (by decide)

/-! ## Claim theorems for the Definition Model -/

theorem targetMissing_eq_true {states : List String} {t : TransitionDef}
    (h : t.target ∉ states) : targetMissing states t = true := by
  simp [targetMissing, h]

/-- C4: a Step declaration with two state labels equal up to case yields a
configuration error, and a Step declaration with a transition whose target is
not among the declared labels yields a configuration error; in both cases
`defineStep` produces no definition. -/
theorem step_definition_validation_errors (r : RawStepDecl) :
    (¬ (r.states.map lowerString).Nodup → ∃ e, defineStep r = .error e) ∧
    (∀ t, t ∈ r.transitions → t.target ∉ r.states →
      ∃ e, defineStep r = .error e) := by
  constructor
  · intro hdup
    cases hv : validate_labels r.states with
    | error l => exact ⟨.invalidLabel l, by simp only [defineStep, hv]⟩
    | ok ls =>
      refine ⟨.duplicateLabels r.states, ?_⟩
      simp only [defineStep, hv]
      rw [if_neg hdup]
  · intro t ht htgt
    cases hv : validate_labels r.states with
    | error l => exact ⟨.invalidLabel l, by simp only [defineStep, hv]⟩
    | ok ls =>
      by_cases hdup : (r.states.map lowerString).Nodup
      · have hsome : (r.transitions.find? (targetMissing r.states)).isSome := by
          rw [List.find?_isSome]
          exact ⟨t, ht, targetMissing_eq_true htgt⟩
        obtain ⟨t', ht'⟩ := Option.isSome_iff_exists.mp hsome
        refine ⟨.unknownTarget t'.target, ?_⟩
        simp only [defineStep, hv]
        rw [if_pos hdup]
        simp only [ht']
      · refine ⟨.duplicateLabels r.states, ?_⟩
        simp only [defineStep, hv]
        rw [if_neg hdup]

/-- Witness for C4 at the two declarations of the test suite: duplicate
case-insensitive labels (`'CREATED', 'created'`) and a transition to the
undeclared label `'NONEXISTENT'`. -/
theorem step_definition_validation_errors_witness :
    (∃ e, defineStep dupLabelRaw = .error e) ∧
    (∃ e, defineStep badTargetRaw = .error e) :=
  ⟨(step_definition_validation_errors dupLabelRaw).1 (by decide),
   (step_definition_validation_errors badTargetRaw).2
     ⟨"invalid_transition", "NONEXISTENT", []⟩ (by decide) (by decide)⟩

/-- C5: when a workflow declaration succeeds, the registry of the resulting
state contains the definition's normalized key (the lower-kebab-case form of
the title when no explicit key is given, the explicit key verbatim
otherwise), and looking that key up retrieves exactly the registered
definition. -/
theorem declared_workflow_key_registered (reg : Registry) (title : String)
    (explicitKey : Option String) (rev : Nat)
    (stepDecls : List (String × RawStepDecl)) (seeds : List String)
    (regOut : Registry) (wf : WorkflowDef)
    (h : declare_workflow reg title explicitKey rev stepDecls seeds =
      .ok (regOut, wf)) :
    wf.key = workflowKey title explicitKey ∧
    lookupRegistry regOut wf.key = some wf := by
  cases hd : defineSteps (stepDecls.map (fun p => p.2)) with
  | error e => simp [declare_workflow, hd] at h
  | ok sds =>
    simp only [declare_workflow, hd] at h
    obtain ⟨hreg, hwf⟩ := Prod.mk.injEq _ _ _ _ ▸ Except.ok.injEq _ _ ▸ h
    subst hreg
    subst hwf
    refine ⟨rfl, ?_⟩
    simp [lookupRegistry, List.find?]

/-- Witness for C5: declaring `Test Workflow` with no explicit key registers
it under the kebab-cased key `test-workflow`, and that key retrieves it. -/
theorem declared_workflow_key_registered_witness :
    testWorkflowDef.key = workflowKey "Test Workflow" none ∧
    lookupRegistry [("test-workflow", testWorkflowDef)] testWorkflowDef.key =
      some testWorkflowDef :=
  declared_workflow_key_registered [] "Test Workflow" none 1
    [("test-step", testStepRaw)] [] [("test-workflow", testWorkflowDef)]
    testWorkflowDef (by decide)

/-- C10: a validated Step definition's `multi` flag is `false` when the
declaration carries no explicit `multi` argument, and `true` when the
declaration says `multi=True`. -/
theorem step_multi_flag_default (r : RawStepDecl) (sd : StepDef)
    (h : defineStep r = .ok sd) :
    (r.multiFlag = none → sd.multi = false) ∧
    (r.multiFlag = some true → sd.multi = true) := by
  have hm : sd.multi = r.multiFlag.getD false := by
    cases hv : validate_labels r.states with
    | error l =>
      simp only [defineStep, hv] at h
      exact Except.noConfusion h
    | ok ls =>
      by_cases hdup : (r.states.map lowerString).Nodup
      · cases hf : r.transitions.find? (targetMissing r.states) with
        | some t =>
          simp only [defineStep, hv] at h
          rw [if_pos hdup] at h
          simp only [hf] at h
          exact Except.noConfusion h
        | none =>
          simp only [defineStep, hv] at h
          rw [if_pos hdup] at h
          simp only [hf, Except.ok.injEq] at h
          rw [← h]
      · simp only [defineStep, hv] at h
        rw [if_neg hdup] at h
        exact Except.noConfusion h
  refine ⟨fun hflag => ?_, fun hflag => ?_⟩ <;> simp [hm, hflag]

/-- Witness for C10: the single-instance step declared without `multi` has
`multi = false`; the step declared with `multi=True` has `multi = true`. -/
theorem step_multi_flag_default_witness :
    testStepDef.multi = false ∧ multiStepDef.multi = true :=
  ⟨(step_multi_flag_default testStepRaw testStepDef (by decide)).1 rfl,
   (step_multi_flag_default multiStepRaw multiStepDef (by decide)).2 rfl⟩

/-! ## Claim theorems for state snapshots -/

/-- C8: the `.set(...)`-style update on a `WorkflowState` snapshot returns a
new snapshot carrying the updated status while the other fields are carried
over unchanged; when the status actually changes, the returned snapshot is a
different value from the original, which itself keeps all its fields. -/
theorem workflow_state_set_immutable (s : WorkflowState) (v : WorkflowStatus) :
    (s.set none none (some v)).status = v ∧
    (s.set none none (some v)).state = s.state ∧
    (s.set none none (some v)).label = s.label ∧
    (v ≠ s.status → s.set none none (some v) ≠ s) := by
  refine ⟨rfl, rfl, rfl, fun hv he => ?_⟩
  exact hv (by simpa [WorkflowState.set] using congrArg WorkflowState.status he)

/-- Witness for C8 at the snapshot of `test_data_structures`: updating the
status to COMPLETED yields a snapshot distinct from the ACTIVE original. -/
theorem workflow_state_set_immutable_witness :
    (WorkflowState.mk "test_state" "TEST_LABEL" .ACTIVE).set none none
        (some .COMPLETED) ≠
      WorkflowState.mk "test_state" "TEST_LABEL" .ACTIVE :=
  (workflow_state_set_immutable ⟨"test_state", "TEST_LABEL", .ACTIVE⟩
    .COMPLETED).2.2.2 (by decide)

/-! ## Claim theorems for the store and the domain aggregate -/

theorem finished_not_active {s : WorkflowStatus} (h : s.isFinishedCat = true) :
    s.isActiveCat = false := by
  cases s <;> simp_all [WorkflowStatus.isFinishedCat, WorkflowStatus.isActiveCat]

/-- C6: committing an instance and reloading it by key and id round-trips:
the reloaded instance exists, its `step_id_map` has the same size, every
step's state label and status equal what was committed, the workflow status
matches, and the instance carries no pending in-memory mutations. -/
theorem commit_load_round_trip (st : Store) (wf : WorkflowInstance) :
    ∃ lw, load_workflow_by_id (commit_workflow st wf) wf.key wf.id = some lw ∧
      lw.step_id_map.length = wf.step_id_map.length ∧
      lw.step_id_map.map (fun p => (p.2.label, p.2.status)) =
        wf.step_id_map.map (fun p => (p.2.label, p.2.status)) ∧
      lw.status = wf.status ∧
      lw.dirty = false := by
  refine ⟨{ id := wf.id
            key := wf.key
            resource_name := wf.resource_name
            resource_id := wf.resource_id
            params := wf.params
            status := wf.status
            step_id_map := (wf.step_id_map.map recordOfEntry).map entryOfRecord
            nextStepId := wf.nextStepId
            dirty := false }, ?_, ?_, ?_, rfl, rfl⟩
  · simp [load_workflow_by_id, commit_workflow, rootOfInstance]
  · simp
  · simp only [List.map_map]
    rfl

/-- C2: injecting an event into a workflow whose persisted status is in the
`_FINISHED` category fails with an execution error whose message names the
offending status, and the store (hence the instance's state) is left
unchanged. -/
theorem inject_event_finished_status_fails (st : Store) (id : Nat)
    (r : WorkflowRoot) (d : InjectEventData) (hr : st.roots id = some r)
    (hf : r.status.isFinishedCat = true) :
    inject_event_store st id d =
      (st, .error ("Cannot inject event into workflow in status " ++
        r.status.name)) := by
  simp [inject_event_store, hr, do__inject_event, finished_not_active hf,
    injectErrorMessage]

/-- Witness for C2: the COMPLETED workflow of
`test_workflow_status_validation` rejects the injection with the message
naming COMPLETED, leaving the store untouched. -/
theorem inject_event_finished_status_fails_witness :
    inject_event_store completedStore 1 sampleInjectData =
      (completedStore,
        .error ("Cannot inject event into workflow in status " ++
          WorkflowStatus.COMPLETED.name)) :=
  inject_event_finished_status_fails completedStore 1 completedRoot
    sampleInjectData rfl (by decide)

/-! ## Claim theorems for the package configuration -/

/-- C9: `setup_config` yields `MAX_MUTATIONS = 50` when
`FLUVIUS_INTERIM_MAX_MUTATIONS` is unset and the parsed integer value of the
variable when it is set; `CQRS_DOMAIN_NAMESPACE` defaults to
`riparius-workflow` the same way. -/
theorem setup_config_defaults (env : Env) :
    (env "FLUVIUS_INTERIM_MAX_MUTATIONS" = none →
      ∃ c, setup_config env = some c ∧ c.MAX_MUTATIONS = 50) ∧
    (∀ s n, env "FLUVIUS_INTERIM_MAX_MUTATIONS" = some s →
      parseNat s = some n →
      ∃ c, setup_config env = some c ∧ c.MAX_MUTATIONS = n) ∧
    (env "FLUVIUS_INTERIM_DOMAIN_NAMESPACE" = none →
      ∀ c, setup_config env = some c →
        c.CQRS_DOMAIN_NAMESPACE = "riparius-workflow") ∧
    (∀ s, env "FLUVIUS_INTERIM_DOMAIN_NAMESPACE" = some s →
      ∀ c, setup_config env = some c → c.CQRS_DOMAIN_NAMESPACE = s) := by
  refine ⟨fun h => ?_, fun s n hs hn => ?_, fun h c hc => ?_, fun s hs c hc => ?_⟩
  · refine ⟨{ MAX_MUTATIONS := 50
              DB_DSN := (env "FLUVIUS_INTERIM_DB_DSN").getD defaults_DB_DSN
              CQRS_DOMAIN_NAMESPACE :=
                (env "FLUVIUS_INTERIM_DOMAIN_NAMESPACE").getD
                  defaults_CQRS_DOMAIN_NAMESPACE
              CQRS_RESOURCE_SCHEMA :=
                (env "FLUVIUS_INTERIM_RESOURCE_SCHEMA").getD
                  defaults_CQRS_RESOURCE_SCHEMA }, ?_, rfl⟩
    simp [setup_config, getenvInt, h, defaults_MAX_MUTATIONS]
  · refine ⟨{ MAX_MUTATIONS := n
              DB_DSN := (env "FLUVIUS_INTERIM_DB_DSN").getD defaults_DB_DSN
              CQRS_DOMAIN_NAMESPACE :=
                (env "FLUVIUS_INTERIM_DOMAIN_NAMESPACE").getD
                  defaults_CQRS_DOMAIN_NAMESPACE
              CQRS_RESOURCE_SCHEMA :=
                (env "FLUVIUS_INTERIM_RESOURCE_SCHEMA").getD
                  defaults_CQRS_RESOURCE_SCHEMA }, ?_, rfl⟩
    simp [setup_config, getenvInt, hs, hn]
  · cases hm : getenvInt env "FLUVIUS_INTERIM_MAX_MUTATIONS" defaults_MAX_MUTATIONS with
    | none => simp [setup_config, hm] at hc
    | some m =>
      simp only [setup_config, hm, Option.some.injEq] at hc
      rw [← hc]
      simp [h, defaults_CQRS_DOMAIN_NAMESPACE]
  · cases hm : getenvInt env "FLUVIUS_INTERIM_MAX_MUTATIONS" defaults_MAX_MUTATIONS with
    | none => simp [setup_config, hm] at hc
    | some m =>
      simp only [setup_config, hm, Option.some.injEq] at hc
      rw [← hc]
      simp [hs]

/-- Witness for C9: the empty environment yields `MAX_MUTATIONS = 50`, and an
environment setting the variable to `"75"` yields 75. -/
theorem setup_config_defaults_witness :
    (∃ c, setup_config envEmpty = some c ∧ c.MAX_MUTATIONS = 50) ∧
    (∃ c, setup_config envMax75 = some c ∧ c.MAX_MUTATIONS = 75) :=
  ⟨(setup_config_defaults envEmpty).1 rfl,
   (setup_config_defaults envMax75).2.1 "75" 75 rfl (by decide)⟩

/-! ## Claim theorem for the end-to-end scenario -/

/-- C1: in the modelled `sample-process` scenario, starting the created
workflow seeds one step; processing one matching `test-event` yields an
instance with exactly 3 entries in `step_id_map`; after committing and
reloading the instance by id, processing a second matching `test-event`
yields an instance with exactly 5 entries, the 3 prior entries retained as a
prefix. -/
theorem sample_process_event_scenario :
    scenarioStarted.step_id_map.length = 1 ∧
    scenarioAfterEvent1.step_id_map.length = 3 ∧
    scenarioReloaded.isSome = true ∧
    scenarioAfterEvent2.step_id_map.length = 5 ∧
    scenarioAfterEvent2.step_id_map.take 3 = scenarioAfterEvent1.step_id_map := by
  decide

end FluviusInterim
